import Mathlib

/-
Verification of the scanning engine of NT-SAY/simple_scanner
(src/scanner.rs and src/services.rs), shallowly embedded in Lean 4.

Network behaviour is parametrised by an oracle: for each port and each
attempt index, the environment determines how the race
`tokio::time::timeout(timeout, TcpStream::connect(addr))` resolves
(timed out / failed within budget / connected), and, on a successful
connection, how the secondary 500 ms read resolves.  Elapsed wall-clock
durations are likewise supplied by the oracle, since they are produced
by the runtime, not by the program logic.  Everything else — branch
structure, classification strings, retry/backoff arithmetic, the
orchestrators' port sets, the sentinel — is translated directly from
the source.
-/

namespace SimpleScanner

/-- Mirrors `pub struct ScanResult` in src/scanner.rs: port number, status
string (`"open"`, `"closed"`, `"timeout"`, or `"DONE"` for the sentinel),
service label, elapsed milliseconds, and optional banner. -/
structure ScanResult where
  port : Nat
  status : String
  service : String
  response_ms : Nat
  banner : Option String
deriving Repr, DecidableEq

/-- Mirrors `identify_service` in src/services.rs: static port → name table
with default `"unknown"`. -/
def identify_service (port : Nat) : String :=
  match port with
  | 21 => "ftp"
  | 22 => "ssh"
  | 23 => "telnet"
  | 25 => "smtp"
  | 53 => "dns"
  | 80 => "http"
  | 110 => "pop3"
  | 143 => "imap"
  | 443 => "https"
  | 445 => "smb"
  | 3306 => "mysql"
  | 3389 => "rdp"
  | 5432 => "postgres"
  | 5900 => "vnc"
  | 8080 => "http-alt"
  | 8443 => "https-alt"
  | 9200 => "elasticsearch"
  | _ => "unknown"

/-- Mirrors `const TOP_PORTS: &[u16]` in src/scanner.rs. -/
def TOP_PORTS : List Nat :=
  [21, 22, 23, 25, 53, 80, 110, 143, 443, 445,
   3306, 3389, 5432, 5900, 8080, 8443, 9200]

/-- Oracle outcome of the secondary bounded read
`tokio::time::timeout(Duration::from_millis(500), stream.read(&mut buf))`.
`ok data` models `Ok(Ok(n))` where `data` is the lossy UTF-8 decoding of the
`n` bytes read (so `n = 0` corresponds to `ok ""`, and `n > 0` to a
non-empty `data`, since lossy decoding of at least one byte yields at least
one character); `error` models `Ok(Err(_))`; `timedOut` models `Err(_)`. -/
inductive ReadOutcome where
  | ok (data : String)
  | error
  | timedOut
deriving Repr, DecidableEq

/-- Oracle outcome of `tokio::time::timeout(timeout, TcpStream::connect(addr))`.
`connected connectMs readMs rd`: the connect future succeeded within the
budget after `connectMs` ms and the subsequent secondary read took a further
`readMs` ms resolving as `rd`; `failed elapsedMs`: the connect future
returned an error within the budget after `elapsedMs` ms; `timedOut`: the
timeout fired first. -/
inductive ConnectOutcome where
  | connected (connectMs readMs : Nat) (rd : ReadOutcome)
  | failed (elapsedMs : Nat)
  | timedOut
deriving Repr, DecidableEq

/-- Rust's `char::is_whitespace`: the Unicode White_Space code points. -/
def rustIsWhitespace (c : Char) : Bool :=
  c.val == 0x09 || c.val == 0x0A || c.val == 0x0B || c.val == 0x0C ||
  c.val == 0x0D || c.val == 0x20 || c.val == 0x85 || c.val == 0xA0 ||
  c.val == 0x1680 || (0x2000 ≤ c.val && c.val ≤ 0x200A) ||
  c.val == 0x2028 || c.val == 0x2029 || c.val == 0x202F ||
  c.val == 0x205F || c.val == 0x3000

/-- Rust's `str::trim`: remove leading and trailing whitespace characters. -/
def rustTrim (s : String) : String :=
  String.mk
    (((s.data.dropWhile rustIsWhitespace).reverse.dropWhile
        rustIsWhitespace).reverse)

/-- The banner computation in `scan_port_once`:
`Ok(Ok(n)) if n > 0 => Some(String::from_utf8_lossy(&buf[..n]).trim().to_string())`,
every other case `None` (recall `ok data` has non-empty `data` exactly when
`n > 0`). -/
def bannerOf : ReadOutcome → Option String
  | .ok data => if data.isEmpty then none else some (rustTrim data)
  | .error => none
  | .timedOut => none

/-- Mirrors `scan_port_once(host, port, timeout)` in src/scanner.rs, with the
network resolution supplied by the oracle value `c`.  In the `connected`
branch the code measures `start.elapsed()` after the secondary read, so the
reported time is connect time plus read time; in the `failed` branch it is
the actual elapsed time; in the `timedOut` branch the code reports
`timeout.as_millis()`, the full budget. -/
def scan_port_once (port timeoutMs : Nat) (c : ConnectOutcome) : ScanResult :=
  match c with
  | .connected connectMs readMs rd =>
      ⟨port, "open", identify_service port, connectMs + readMs, bannerOf rd⟩
  | .failed elapsedMs =>
      ⟨port, "closed", identify_service port, elapsedMs, none⟩
  | .timedOut =>
      ⟨port, "timeout", identify_service port, timeoutMs, none⟩

/-- The conclusiveness test in `scan_with_retries`:
`res.status == "open" || res.status == "closed"`. -/
def isConclusive (r : ScanResult) : Bool :=
  r.status == "open" || r.status == "closed"

/-- The hard-coded backoff start in `scan_with_retries`:
`let mut backoff = Duration::from_millis(100);`. -/
def retryBaseBackoffMs : Nat := 100

/-- Instrumented return value of the retry wrapper: the `ScanResult` the
function returns, plus ghost observations of the sleep durations performed
(in order) and the number of `scan_port_once` attempts made. -/
structure RetryTrace where
  result : ScanResult
  sleeps : List Nat
  attempts : Nat
deriving Repr, DecidableEq

/-- The loop of `scan_with_retries`.  `env` gives the connect oracle per
attempt index, `k` is the index of the next attempt, `backoff` the current
backoff value, and the last argument the number of remaining loop
iterations (`for _ in 0..=retries` runs `retries + 1` iterations).  When the
iterations are exhausted the trailing unconditional `scan_port_once` call is
made, with no further sleep. -/
def scanRetryGo (env : Nat → ConnectOutcome) (port timeoutMs : Nat) :
    Nat → Nat → Nat → RetryTrace
  | _, k, 0 => ⟨scan_port_once port timeoutMs (env k), [], 1⟩
  | backoff, k, fuel + 1 =>
      let res := scan_port_once port timeoutMs (env k)
      if isConclusive res then ⟨res, [], 1⟩
      else
        let rest := scanRetryGo env port timeoutMs (backoff * 2) (k + 1) fuel
        ⟨rest.result, backoff :: rest.sleeps, rest.attempts + 1⟩

/-- Mirrors `scan_with_retries(host, port, base_timeout, retries)` in
src/scanner.rs: a loop of `retries + 1` budgeted attempts, each returning
immediately on an open/closed result and otherwise sleeping the current
backoff and doubling it, followed by one final unconditional attempt. -/
def scan_with_retries (env : Nat → ConnectOutcome)
    (port timeoutMs retries : Nat) : RetryTrace :=
  scanRetryGo env port timeoutMs retryBaseBackoffMs 0 (retries + 1)

/-- Range-scan parameters in `scan_range`: `let concurrency = 256usize;`,
`Duration::from_secs(3)`, `let retries = 1u8;`. -/
def rangeConcurrency : Nat := 256

/-- Per-probe timeout of `scan_range`, in milliseconds. -/
def rangeTimeoutMs : Nat := 3000

/-- Retry budget of `scan_range`. -/
def rangeRetries : Nat := 1

/-- Top-ports parameters in `scan_top_ports`: `let concurrency = 128usize;`,
`Duration::from_secs(2)`, retries argument `0`. -/
def topConcurrency : Nat := 128

/-- Per-probe timeout of `scan_top_ports`, in milliseconds. -/
def topTimeoutMs : Nat := 2000

/-- Retry budget of `scan_top_ports`. -/
def topRetries : Nat := 0

/-- The sentinel result both orchestrators push after joining every task:
`ScanResult \x7b port: 0, status: "DONE", service: "", response_ms: 0, banner: None \x7d`. -/
def sentinelResult : ScanResult := ⟨0, "DONE", "", 0, none⟩

/-- The inclusive port list `start_port..=end_port` iterated by `scan_range`
(empty when `e < s`, matching Rust's empty inclusive range). -/
def rangePorts (s e : Nat) : List Nat :=
  (List.range (e + 1 - s)).map (fun i => i + s)

/-- Checked u16 subtraction: `none` models an arithmetic-overflow panic. -/
def u16CheckedSub (a b : Nat) : Option Nat :=
  if b ≤ a then some (a - b) else none

/-- Checked u16 addition: `none` models an arithmetic-overflow panic. -/
def u16CheckedAdd (a b : Nat) : Option Nat :=
  if a + b ≤ 65535 then some (a + b) else none

/-- The capacity expression `(end_port - start_port + 1) as usize` that
`scan_range` evaluates (as u16 arithmetic) before dispatching any probe:
under checked arithmetic, `none` means the expression panics. -/
def checkedCapacity (s e : Nat) : Option Nat :=
  (u16CheckedSub e s).bind (fun d => u16CheckedAdd d 1)

/-- The per-port results a run computes: each port's task runs
`scan_with_retries` with that port's attempt oracle and sends the returned
`ScanResult` on the channel. -/
def portResults (env : Nat → Nat → ConnectOutcome)
    (ports : List Nat) (timeoutMs retries : Nat) : List ScanResult :=
  ports.map (fun p => (scan_with_retries (env p) p timeoutMs retries).result)

/-- The possible channel contents of one completed run: the per-port results
arrive in some completion order (an arbitrary permutation, since tasks run
concurrently), and the sentinel is sent only after every task handle has
been awaited, hence strictly last. -/
def isTraceOf (results trace : List ScanResult) : Prop :=
  ∃ outs, List.Perm outs results ∧ trace = outs ++ [sentinelResult]

/-- The possible delivered streams of `scan_range(host, s, e, tx)`: the
capacity expression must evaluate without overflow (otherwise the function
panics before dispatching and no trace is produced), and the trace consists
of the per-port results of `s..=e` in some completion order followed by the
sentinel. -/
def scanRangeTrace (env : Nat → Nat → ConnectOutcome) (s e : Nat)
    (trace : List ScanResult) : Prop :=
  (checkedCapacity s e).isSome = true ∧
    isTraceOf (portResults env (rangePorts s e) rangeTimeoutMs rangeRetries) trace

/-- The possible delivered streams of `scan_top_ports(host, tx)`. -/
def scanTopTrace (env : Nat → Nat → ConnectOutcome)
    (trace : List ScanResult) : Prop :=
  isTraceOf (portResults env TOP_PORTS topTimeoutMs topRetries) trace

/-- Concrete oracle: every connect attempt on every port is refused after
1 ms. -/
def envClosedAll : Nat → Nat → ConnectOutcome := fun _ _ => ConnectOutcome.failed 1

/-- Concrete oracle: every connect attempt hits the timeout. -/
def envAllTimeout : Nat → ConnectOutcome := fun _ => ConnectOutcome.timedOut

/-- Concrete oracle: attempts 0 and 1 time out, every later attempt
connects (with a silent peer). -/
def envTwoTimeouts : Nat → ConnectOutcome :=
  fun i => if i < 2 then ConnectOutcome.timedOut
           else ConnectOutcome.connected 5 0 (ReadOutcome.ok "")

/-- Concrete oracle outcome: connection succeeds and the peer volunteers
the text `"ssh"` within the read window. -/
def bannerProbeOutcome : ConnectOutcome :=
  ConnectOutcome.connected 1 2 (ReadOutcome.ok "ssh")

/-
Admission-control model for the orchestrators.  Each run spawns one task
per port; a task first awaits `sem.acquire()` (returning without any
network attempt if acquisition fails), then performs its network attempts
while holding the permit, and the permit is released exactly once — by the
explicit `drop(permit)` on normal completion, or by the permit's drop glue
if the task is aborted mid-flight.  Because the tasks are symmetric, the
system state is abstracted to counters: permits currently available, tasks
not yet admitted, tasks holding a permit (attempt in flight), tasks that
released normally, tasks that exited without an outcome.
-/

/-- Counter abstraction of one run's tasks and its semaphore. -/
structure SemSystem where
  avail : Nat
  nWaiting : Nat
  inFlight : Nat
  nFinished : Nat
  nCancelled : Nat
deriving Repr, DecidableEq

/-- Initial state of a run with concurrency cap `cap` and `n` spawned
tasks: `Semaphore::new(cap)` has `cap` permits and every task is waiting. -/
def semInit (cap n : Nat) : SemSystem := ⟨cap, n, 0, 0, 0⟩

/-- One scheduler event of a run.  `acquire`: a waiting task obtains a
permit (only possible when one is available) and starts its attempts;
`release`: a task finishes its attempts, sends its result and drops its
permit; `acquireFailed`: `sem.acquire()` returns `Err` and the task exits
without attempting; `abortInFlight`: the task is cancelled while holding
its permit, whose drop returns it to the semaphore; `abortWaiting`: the
task is cancelled before admission. -/
inductive SemStep : SemSystem → SemSystem → Prop where
  | acquire (σ : SemSystem) (hw : 0 < σ.nWaiting) (ha : 0 < σ.avail) :
      SemStep σ ⟨σ.avail - 1, σ.nWaiting - 1, σ.inFlight + 1,
        σ.nFinished, σ.nCancelled⟩
  | release (σ : SemSystem) (hf : 0 < σ.inFlight) :
      SemStep σ ⟨σ.avail + 1, σ.nWaiting, σ.inFlight - 1,
        σ.nFinished + 1, σ.nCancelled⟩
  | acquireFailed (σ : SemSystem) (hw : 0 < σ.nWaiting) :
      SemStep σ ⟨σ.avail, σ.nWaiting - 1, σ.inFlight,
        σ.nFinished, σ.nCancelled + 1⟩
  | abortInFlight (σ : SemSystem) (hf : 0 < σ.inFlight) :
      SemStep σ ⟨σ.avail + 1, σ.nWaiting, σ.inFlight - 1,
        σ.nFinished, σ.nCancelled + 1⟩
  | abortWaiting (σ : SemSystem) (hw : 0 < σ.nWaiting) :
      SemStep σ ⟨σ.avail, σ.nWaiting - 1, σ.inFlight,
        σ.nFinished, σ.nCancelled + 1⟩

/-- A state is reachable in a run if some finite schedule of events leads
to it from the initial state. -/
def semReachable (cap n : Nat) (σ : SemSystem) : Prop :=
  Relation.ReflTransGen SemStep (semInit cap n) σ

/-- Permit conservation: every event preserves the sum of available permits
and in-flight tasks. -/
lemma semStep_conserves {σ τ : SemSystem} (h : SemStep σ τ) :
    τ.avail + τ.inFlight = σ.avail + σ.inFlight := by
  cases h <;> simp_all <;> omega

/-- In every reachable state of a run with cap `cap`, the permits still
available plus the tasks holding one sum to exactly `cap`. -/
lemma semReachable_sum (cap n : Nat) {σ : SemSystem}
    (h : semReachable cap n σ) : σ.avail + σ.inFlight = cap := by
  induction h with
  | refl => simp [semInit]
  | tail _ hstep ih => rw [semStep_conserves hstep, ih]

/-- `scan_port_once` reports the port it was asked about. -/
lemma scan_port_once_port (port timeoutMs : Nat) (c : ConnectOutcome) :
    (scan_port_once port timeoutMs c).port = port := by
  cases c <;> rfl

/-- `scan_port_once` fills the service label from the static table in every
branch. -/
lemma scan_port_once_service (port timeoutMs : Nat) (c : ConnectOutcome) :
    (scan_port_once port timeoutMs c).service = identify_service port := by
  cases c <;> rfl

/-- A single attempt's status is one of the three probe classifications. -/
lemma scan_port_once_status (port timeoutMs : Nat) (c : ConnectOutcome) :
    (scan_port_once port timeoutMs c).status = "open" ∨
    (scan_port_once port timeoutMs c).status = "closed" ∨
    (scan_port_once port timeoutMs c).status = "timeout" := by
  cases c with
  | connected a b rd => exact Or.inl rfl
  | failed a => exact Or.inr (Or.inl rfl)
  | timedOut => exact Or.inr (Or.inr rfl)

/-- The retry wrapper's result is some single attempt's result. -/
lemma scanRetryGo_result (env : Nat → ConnectOutcome) (port timeoutMs : Nat) :
    ∀ fuel backoff k, ∃ j,
      (scanRetryGo env port timeoutMs backoff k fuel).result =
        scan_port_once port timeoutMs (env j) := by
  intro fuel
  induction fuel with
  | zero => intro backoff k; exact ⟨k, rfl⟩
  | succ m ih =>
      intro backoff k
      by_cases hc : isConclusive (scan_port_once port timeoutMs (env k)) = true
      · exact ⟨k, by simp [scanRetryGo, hc]⟩
      · obtain ⟨j, hj⟩ := ih (backoff * 2) (k + 1)
        exact ⟨j, by simp [scanRetryGo, hc, hj]⟩

/-- `scan_with_retries` reports the port it was asked about. -/
lemma scan_with_retries_port (env : Nat → ConnectOutcome)
    (port timeoutMs retries : Nat) :
    (scan_with_retries env port timeoutMs retries).result.port = port := by
  obtain ⟨j, hj⟩ := scanRetryGo_result env port timeoutMs (retries + 1)
    retryBaseBackoffMs 0
  rw [scan_with_retries, hj, scan_port_once_port]

/-- `scan_with_retries` fills the service label from the static table. -/
lemma scan_with_retries_service (env : Nat → ConnectOutcome)
    (port timeoutMs retries : Nat) :
    (scan_with_retries env port timeoutMs retries).result.service =
      identify_service port := by
  obtain ⟨j, hj⟩ := scanRetryGo_result env port timeoutMs (retries + 1)
    retryBaseBackoffMs 0
  rw [scan_with_retries, hj, scan_port_once_service]

/-- The retry wrapper always returns one of the three probe statuses. -/
lemma scan_with_retries_status (env : Nat → ConnectOutcome)
    (port timeoutMs retries : Nat) :
    (scan_with_retries env port timeoutMs retries).result.status = "open" ∨
    (scan_with_retries env port timeoutMs retries).result.status = "closed" ∨
    (scan_with_retries env port timeoutMs retries).result.status = "timeout" := by
  obtain ⟨j, hj⟩ := scanRetryGo_result env port timeoutMs (retries + 1)
    retryBaseBackoffMs 0
  rw [scan_with_retries, hj]
  exact scan_port_once_status port timeoutMs (env j)

/-- Every element of a run's per-port result list carries a probe status,
never the sentinel's. -/
lemma portResults_status_ne_done (env : Nat → Nat → ConnectOutcome)
    (ports : List Nat) (timeoutMs retries : Nat) :
    ∀ r ∈ portResults env ports timeoutMs retries, r.status ≠ "DONE" := by
  intro r hr
  obtain ⟨p, _, rfl⟩ := List.mem_map.mp hr
  rcases scan_with_retries_status (env p) p timeoutMs retries with h | h | h <;>
    simp [h]

/-- The ports of a run's per-port result list are exactly the requested
port list. -/
lemma portResults_map_port (env : Nat → Nat → ConnectOutcome)
    (ports : List Nat) (timeoutMs retries : Nat) :
    (portResults env ports timeoutMs retries).map (fun r => r.port) = ports := by
  rw [portResults, List.map_map]
  exact List.map_congr_left (fun p _ => scan_with_retries_port (env p) p _ _)
    |>.trans (List.map_id ports)

/-- Length of the inclusive range list. -/
lemma rangePorts_length (s e : Nat) : (rangePorts s e).length = e + 1 - s := by
  simp [rangePorts]

/-- The inclusive range list has no duplicates. -/
lemma rangePorts_nodup (s e : Nat) : (rangePorts s e).Nodup := by
  exact (List.nodup_range _).map (fun a b h => Nat.add_right_cancel h)

/-- Membership in the inclusive range list gives the expected bounds. -/
lemma mem_rangePorts {s e p : Nat} (h : p ∈ rangePorts s e) :
    s ≤ p ∧ p ≤ e := by
  obtain ⟨i, hi, rfl⟩ := List.mem_map.mp h
  rw [List.mem_range] at hi
  omega

/-- A single attempt is conclusive exactly when the connect oracle did not
time out. -/
lemma isConclusive_scan_port_once (port timeoutMs : Nat) (c : ConnectOutcome) :
    isConclusive (scan_port_once port timeoutMs c) = true ↔
      c ≠ ConnectOutcome.timedOut := by
  cases c <;> simp [scan_port_once, isConclusive]

/-- Behaviour of the retry loop when the attempts at indices
`start, ..., start + k - 1` time out and the attempt at `start + k` is
conclusive, with at least `k + 1` loop iterations remaining: the loop
returns that conclusive attempt's result after `k` sleeps of durations
`backoff, 2 * backoff, ..., 2 ^ (k-1) * backoff` and `k + 1` attempts. -/
lemma scanRetryGo_spec (env : Nat → ConnectOutcome) (port timeoutMs : Nat) :
    ∀ (k backoff start fuel : Nat), k < fuel →
      (∀ i, i < k → env (start + i) = ConnectOutcome.timedOut) →
      env (start + k) ≠ ConnectOutcome.timedOut →
      scanRetryGo env port timeoutMs backoff start fuel =
        ⟨scan_port_once port timeoutMs (env (start + k)),
         (List.range k).map (fun i => backoff * 2 ^ i), k + 1⟩ := by
  intro k
  induction k with
  | zero =>
      intro backoff start fuel hfuel _ hk
      cases fuel with
      | zero => omega
      | succ m =>
          have hc : isConclusive (scan_port_once port timeoutMs (env start)) = true :=
            (isConclusive_scan_port_once port timeoutMs (env start)).mpr
              (by simpa using hk)
          simp [scanRetryGo, hc]
  | succ k ih =>
      intro backoff start fuel hfuel hto hk
      cases fuel with
      | zero => omega
      | succ m =>
          have h0 : env start = ConnectOutcome.timedOut := by
            simpa using hto 0 (Nat.succ_pos k)
          have hc : ¬ isConclusive (scan_port_once port timeoutMs (env start)) = true := by
            rw [isConclusive_scan_port_once]
            simp [h0]
          have hto1 : ∀ i, i < k → env (start + 1 + i) = ConnectOutcome.timedOut := by
            intro i hi
            have he : start + 1 + i = start + (i + 1) := by omega
            rw [he]
            exact hto (i + 1) (by omega)
          have hk1 : env (start + 1 + k) ≠ ConnectOutcome.timedOut := by
            have he : start + 1 + k = start + (k + 1) := by omega
            rw [he]
            exact hk
          have hrest := ih (backoff * 2) (start + 1) m (by omega) hto1 hk1
          have he2 : start + 1 + k = start + (k + 1) := by omega
          have hsleep : backoff :: (List.range k).map (fun i => backoff * 2 * 2 ^ i) =
              (List.range (k + 1)).map (fun i => backoff * 2 ^ i) := by
            rw [List.range_succ_eq_map, List.map_cons, List.map_map]
            refine congrArg₂ _ (by simp) ?_
            refine List.map_congr_left (fun i _ => ?_)
            simp only [Function.comp_apply, pow_succ]
            ring
          simp [scanRetryGo, hc, hrest, he2, hsleep]

/-- Whatever the schedule of probe outcomes, the first sleep the retry loop
performs (if it performs any) lasts exactly the starting backoff value. -/
lemma scanRetryGo_sleeps_head (env : Nat → ConnectOutcome)
    (port timeoutMs : Nat) :
    ∀ fuel backoff k s rest,
      (scanRetryGo env port timeoutMs backoff k fuel).sleeps = s :: rest →
      s = backoff := by
  intro fuel backoff k s rest h
  cases fuel with
  | zero => simp [scanRetryGo] at h
  | succ m =>
      by_cases hc : isConclusive (scan_port_once port timeoutMs (env k)) = true
      · simp [scanRetryGo, hc] at h
      · simp [scanRetryGo, hc] at h
        exact h.1.symm

/-- Under the all-refused oracle, the range scan of ports 1..=1 can deliver
the single closed result followed by the sentinel. -/
lemma envClosedAll_range_trace :
    scanRangeTrace envClosedAll 1 1
      [⟨1, "closed", "unknown", 1, none⟩, sentinelResult] := by
  refine ⟨rfl, ⟨[⟨1, "closed", "unknown", 1, none⟩], ?_, rfl⟩⟩
  have h : portResults envClosedAll (rangePorts 1 1) rangeTimeoutMs rangeRetries =
      [⟨1, "closed", "unknown", 1, none⟩] := rfl
  rw [h]

/-- C1: every scan run (range or top-ports) delivers exactly one sentinel
outcome — port 0, status `"DONE"`, empty service, response time 0, no
banner — and it is delivered strictly after every non-sentinel outcome of
the run: in every possible delivered stream the sentinel is the final
element and no earlier element is a sentinel, because the orchestrator
awaits every spawned per-port task before sending it. -/
theorem C1_sentinel_unique_and_last :
    (∀ env s e trace, scanRangeTrace env s e trace →
      ∃ outs, trace = outs ++ [sentinelResult] ∧
        ∀ r ∈ outs, r.status ≠ "DONE") ∧
    (∀ env trace, scanTopTrace env trace →
      ∃ outs, trace = outs ++ [sentinelResult] ∧
        ∀ r ∈ outs, r.status ≠ "DONE") := by
  constructor
  · rintro env s e trace ⟨-, outs, hperm, rfl⟩
    exact ⟨outs, rfl, fun r hr =>
      portResults_status_ne_done env _ _ _ r (hperm.subset hr)⟩
  · rintro env trace ⟨outs, hperm, rfl⟩
    exact ⟨outs, rfl, fun r hr =>
      portResults_status_ne_done env _ _ _ r (hperm.subset hr)⟩

/-- C1 witness: a concrete range run over ports 1..=1 with the connection
refused, evaluated to the two-element stream ending in the sentinel. -/
theorem C1_sentinel_unique_and_last_witness :
    scanRangeTrace envClosedAll 1 1
      [⟨1, "closed", "unknown", 1, none⟩, sentinelResult] ∧
    ∃ outs, ([⟨1, "closed", "unknown", 1, none⟩, sentinelResult] :
        List ScanResult) = outs ++ [sentinelResult] ∧
      ∀ r ∈ outs, r.status ≠ "DONE" :=
  ⟨envClosedAll_range_trace,
   C1_sentinel_unique_and_last.1 envClosedAll 1 1 _ envClosedAll_range_trace⟩

/-- C2: a range run under the caller precondition `1 ≤ s ≤ e` (with `e` a
valid u16) delivers exactly `e - s + 1` non-sentinel outcomes whose ports
are exactly the ports of `s..=e`, each reported once and lying in
`[1, 65535]`; a top-ports run does the same for the fixed 17-entry
`TOP_PORTS` list. -/
theorem C2_port_coverage :
    (∀ env s e trace, 1 ≤ s → s ≤ e → e ≤ 65535 →
      scanRangeTrace env s e trace →
      ∃ outs, trace = outs ++ [sentinelResult] ∧
        outs.length = e - s + 1 ∧
        List.Perm (outs.map (fun r => r.port)) (rangePorts s e) ∧
        (outs.map (fun r => r.port)).Nodup ∧
        ∀ r ∈ outs, 1 ≤ r.port ∧ r.port ≤ 65535) ∧
    (∀ env trace, scanTopTrace env trace →
      ∃ outs, trace = outs ++ [sentinelResult] ∧
        outs.length = 17 ∧
        List.Perm (outs.map (fun r => r.port)) TOP_PORTS ∧
        (outs.map (fun r => r.port)).Nodup ∧
        ∀ r ∈ outs, 1 ≤ r.port ∧ r.port ≤ 65535) := by
  constructor
  · rintro env s e trace hs hse he ⟨-, outs, hperm, rfl⟩
    have hmap : List.Perm (outs.map (fun r => r.port)) (rangePorts s e) := by
      have h := hperm.map (fun r => r.port)
      rwa [portResults_map_port] at h
    refine ⟨outs, rfl, ?_, hmap, ?_, ?_⟩
    · have hlen := hmap.length_eq
      rw [List.length_map, rangePorts_length] at hlen
      omega
    · exact hmap.nodup_iff.mpr (rangePorts_nodup s e)
    · intro r hr
      have hmem : r.port ∈ rangePorts s e :=
        hmap.subset (List.mem_map_of_mem (fun r => r.port) hr)
      have := mem_rangePorts hmem
      omega
  · rintro env trace ⟨outs, hperm, rfl⟩
    have hmap : List.Perm (outs.map (fun r => r.port)) TOP_PORTS := by
      have h := hperm.map (fun r => r.port)
      rwa [portResults_map_port] at h
    refine ⟨outs, rfl, ?_, hmap, ?_, ?_⟩
    · have hlen := hmap.length_eq
      rw [List.length_map] at hlen
      simpa [TOP_PORTS] using hlen
    · exact hmap.nodup_iff.mpr (by decide)
    · intro r hr
      have hmem : r.port ∈ TOP_PORTS :=
        hmap.subset (List.mem_map_of_mem (fun r => r.port) hr)
      have hbound : ∀ p ∈ TOP_PORTS, 1 ≤ p ∧ p ≤ 65535 := by decide
      exact hbound r.port hmem

/-- C2 witness: the concrete range run over ports 1..=1, with the
precondition `1 ≤ 1 ≤ 1 ≤ 65535` discharged and the conclusion evaluated. -/
theorem C2_port_coverage_witness :
    (1 : Nat) ≤ 1 ∧ (1 : Nat) ≤ 65535 ∧
    (∃ outs, ([⟨1, "closed", "unknown", 1, none⟩, sentinelResult] :
        List ScanResult) = outs ++ [sentinelResult] ∧
      outs.length = 1 - 1 + 1 ∧
      List.Perm (outs.map (fun r => r.port)) (rangePorts 1 1) ∧
      (outs.map (fun r => r.port)).Nodup ∧
      ∀ r ∈ outs, 1 ≤ r.port ∧ r.port ≤ 65535) :=
  ⟨Nat.le_refl 1, by omega,
   C2_port_coverage.1 envClosedAll 1 1 _ (Nat.le_refl 1) (Nat.le_refl 1)
     (by omega) envClosedAll_range_trace⟩

/-- C3: for every scan run and every schedule of task events, the number of
probes holding a permit (attempt in flight) never exceeds the mode's
concurrency cap — 256 for range scans, 128 for top-ports scans — because
each task acquires one permit before its first connection attempt and the
permit is returned exactly once on every exit path, including
cancellation. -/
theorem C3_concurrency_cap :
    (∀ n σ, semReachable rangeConcurrency n σ →
      σ.inFlight ≤ rangeConcurrency) ∧
    (∀ n σ, semReachable topConcurrency n σ →
      σ.inFlight ≤ topConcurrency) := by
  constructor <;> intro n σ h <;> have hsum := semReachable_sum _ n h <;> omega

/-- C3 witness: the initial state of a 5-task range run, and the state of a
17-task top-ports run after one task has been admitted, both evaluated
against their caps. -/
theorem C3_concurrency_cap_witness :
    (semInit rangeConcurrency 5).inFlight ≤ rangeConcurrency ∧
    (⟨127, 16, 1, 0, 0⟩ : SemSystem).inFlight ≤ topConcurrency := by
  constructor
  · exact C3_concurrency_cap.1 5 _ Relation.ReflTransGen.refl
  · exact C3_concurrency_cap.2 17 _
      (Relation.ReflTransGen.single
        (SemStep.acquire (semInit topConcurrency 17) (by decide) (by decide)))

/-- C4: `scan_with_retries` returns the first conclusive (open/closed)
attempt's result immediately: if attempts `0, ..., k-1` time out and
attempt `k` is conclusive, with `k ≤ retries`, the wrapper returns that
attempt's result after exactly `k` sleeps of durations
`base, 2·base, 4·base, ...` and `k + 1` attempts (so a timeout triggers a
retry preceded by a sleep that starts at the base delay and doubles each
time, and a conclusive first answer means no sleeps at all); moreover the
wrapper always returns a classified result. -/
theorem C4_retry_backoff :
    (∀ (env : Nat → ConnectOutcome) (port timeoutMs retries k : Nat),
      k ≤ retries →
      (∀ i, i < k → env i = ConnectOutcome.timedOut) →
      env k ≠ ConnectOutcome.timedOut →
      scan_with_retries env port timeoutMs retries =
        ⟨scan_port_once port timeoutMs (env k),
         (List.range k).map (fun i => retryBaseBackoffMs * 2 ^ i),
         k + 1⟩) ∧
    (∀ (env : Nat → ConnectOutcome) (port timeoutMs retries : Nat),
      (scan_with_retries env port timeoutMs retries).result.status = "open" ∨
      (scan_with_retries env port timeoutMs retries).result.status = "closed" ∨
      (scan_with_retries env port timeoutMs retries).result.status = "timeout") := by
  constructor
  · intro env port timeoutMs retries k hk hto hkc
    have h := scanRetryGo_spec env port timeoutMs k retryBaseBackoffMs 0
      (retries + 1) (by omega) (by intro i hi; simpa using hto i hi)
      (by simpa using hkc)
    simpa [scan_with_retries] using h
  · exact scan_with_retries_status

/-- C4 witness: an oracle that times out twice and then connects, with
retry budget 2, returns the open result after sleeps of 100 ms and 200 ms
and three attempts. -/
theorem C4_retry_backoff_witness :
    (2 : Nat) ≤ 2 ∧
    scan_with_retries envTwoTimeouts 80 rangeTimeoutMs 2 =
      ⟨scan_port_once 80 rangeTimeoutMs (envTwoTimeouts 2),
       (List.range 2).map (fun i => retryBaseBackoffMs * 2 ^ i), 2 + 1⟩ :=
  ⟨Nat.le_refl 2,
   C4_retry_backoff.1 envTwoTimeouts 80 rangeTimeoutMs 2 2 (Nat.le_refl 2)
     (by decide) (by decide)⟩

/-- C5 counterexample: in top-ports mode (retry budget 0) an attempt that
times out is followed by one further connection attempt — the trailing
unconditional call in `scan_with_retries` — so two attempts are made for
that port, not one. -/
theorem C5_single_attempt_counterexample :
    (scan_with_retries envAllTimeout 80 topTimeoutMs topRetries).attempts = 2 := by
  rfl

/-- C5 (amended): in top-ports mode (retry budget 0) a port receives
exactly one probe attempt when that attempt yields Open or Closed, but
when it yields Timeout the wrapper sleeps once and makes one further
final attempt, for two attempts in total. -/
theorem C5_top_mode_attempts :
    ∀ (env : Nat → ConnectOutcome) (port : Nat),
      (scan_with_retries env port topTimeoutMs topRetries).attempts =
        if env 0 = ConnectOutcome.timedOut then 2 else 1 := by
  intro env port
  by_cases h : env 0 = ConnectOutcome.timedOut
  · rw [if_pos h]
    have hc : ¬ isConclusive (scan_port_once port topTimeoutMs (env 0)) = true := by
      rw [isConclusive_scan_port_once]
      simp [h]
    simp [scan_with_retries, topRetries, scanRetryGo, hc]
  · rw [if_neg h]
    have hc : isConclusive (scan_port_once port topTimeoutMs (env 0)) = true :=
      (isConclusive_scan_port_once port topTimeoutMs (env 0)).mpr h
    simp [scan_with_retries, topRetries, scanRetryGo, hc]

/-- C6 counterexample: a peer that sends a single newline within the read
window yields a present banner whose value is the empty string — the
banner is present yet empty after trimming surrounding whitespace. -/
theorem C6_banner_counterexample :
    (scan_port_once 80 rangeTimeoutMs
      (ConnectOutcome.connected 1 0 (ReadOutcome.ok "\n"))).banner =
      some "" := by
  rfl

/-- C6 (amended): a banner is present only when the state is Open and the
peer sent at least one byte within the secondary read window, and it is
always absent for Closed, Timeout and the sentinel; when present, the
banner is the received text with surrounding whitespace trimmed, which may
be the empty string when the peer sent only whitespace. -/
theorem C6_banner_invariant :
    (∀ (port timeoutMs : Nat) (c : ConnectOutcome),
      (scan_port_once port timeoutMs c).banner.isSome = true →
      (scan_port_once port timeoutMs c).status = "open" ∧
      ∃ a b data, c = ConnectOutcome.connected a b (ReadOutcome.ok data) ∧
        data ≠ "" ∧
        (scan_port_once port timeoutMs c).banner = some (rustTrim data)) ∧
    (∀ (port timeoutMs : Nat) (c : ConnectOutcome),
      (scan_port_once port timeoutMs c).status ≠ "open" →
      (scan_port_once port timeoutMs c).banner = none) ∧
    sentinelResult.banner = none := by
  refine ⟨?_, ?_, rfl⟩
  · intro port timeoutMs c h
    cases c with
    | connected a b rd =>
        cases rd with
        | ok data =>
            by_cases hd : data.isEmpty = true
            · simp [scan_port_once, bannerOf, hd] at h
            · refine ⟨rfl, a, b, data, rfl, ?_, ?_⟩
              · intro hdata
                exact hd (by rw [hdata]; rfl)
              · simp [scan_port_once, bannerOf, hd]
        | error => simp [scan_port_once, bannerOf] at h
        | timedOut => simp [scan_port_once, bannerOf] at h
    | failed a => simp [scan_port_once] at h
    | timedOut => simp [scan_port_once] at h
  · intro port timeoutMs c h
    cases c with
    | connected a b rd => simp [scan_port_once] at h
    | failed a => rfl
    | timedOut => rfl

/-- C6 witness: a connection whose peer sends `"ssh"` produces an open
outcome with the present, trimmed banner. -/
theorem C6_banner_invariant_witness :
    (scan_port_once 22 rangeTimeoutMs bannerProbeOutcome).banner.isSome = true ∧
    ((scan_port_once 22 rangeTimeoutMs bannerProbeOutcome).status = "open" ∧
     ∃ a b data,
       bannerProbeOutcome = ConnectOutcome.connected a b (ReadOutcome.ok data) ∧
       data ≠ "" ∧
       (scan_port_once 22 rangeTimeoutMs bannerProbeOutcome).banner =
         some (rustTrim data)) :=
  ⟨rfl, C6_banner_invariant.1 22 rangeTimeoutMs bannerProbeOutcome rfl⟩

/-- C7: a single probe attempt classifies exactly as the connect race
resolves — timeout fires: status `"timeout"` with the full budget as
response time; connect fails within budget: status `"closed"` with the
actual elapsed time; connect succeeds: status `"open"` with response time
covering the connect plus the optional secondary read. -/
theorem C7_single_probe_classification :
    ∀ (port timeoutMs connectMs readMs elapsedMs : Nat) (rd : ReadOutcome),
      scan_port_once port timeoutMs ConnectOutcome.timedOut =
        ⟨port, "timeout", identify_service port, timeoutMs, none⟩ ∧
      scan_port_once port timeoutMs (ConnectOutcome.failed elapsedMs) =
        ⟨port, "closed", identify_service port, elapsedMs, none⟩ ∧
      (scan_port_once port timeoutMs
          (ConnectOutcome.connected connectMs readMs rd)).status = "open" ∧
      (scan_port_once port timeoutMs
          (ConnectOutcome.connected connectMs readMs rd)).response_ms =
        connectMs + readMs := by
  intro port timeoutMs connectMs readMs elapsedMs rd
  exact ⟨rfl, rfl, rfl, rfl⟩

/-- C8 counterexample: under an always-timing-out oracle both modes sleep
100 ms first — the backoff base delay is the same constant in range mode
(retry budget 1, sleeps 100 then 200 ms) and top-ports mode (retry budget
0, one 100 ms sleep), so no pair of modes uses different base delays. -/
theorem C8_base_delay_counterexample :
    (scan_with_retries envAllTimeout 80 rangeTimeoutMs rangeRetries).sleeps =
      [100, 200] ∧
    (scan_with_retries envAllTimeout 80 topTimeoutMs topRetries).sleeps =
      [100] := by
  exact ⟨rfl, rfl⟩

/-- C8 (amended): the retry count is a per-scan-mode parameter — 1 for
range scans, 0 for top-ports scans — but the backoff base delay is a fixed
100 ms constant inside `scan_with_retries`, identical for every mode: the
first sleep of any invocation, in any mode, lasts exactly
`retryBaseBackoffMs`. -/
theorem C8_retry_params :
    rangeRetries = 1 ∧ topRetries = 0 ∧ retryBaseBackoffMs = 100 ∧
    (∀ (env : Nat → ConnectOutcome) (port timeoutMs retries s : Nat)
        (rest : List Nat),
      (scan_with_retries env port timeoutMs retries).sleeps = s :: rest →
      s = retryBaseBackoffMs) := by
  refine ⟨rfl, rfl, rfl, ?_⟩
  intro env port timeoutMs retries s rest h
  exact scanRetryGo_sleeps_head env port timeoutMs (retries + 1)
    retryBaseBackoffMs 0 s rest h

/-- C8 witness: the first sleep of a concrete range-mode invocation equals
the fixed base delay. -/
theorem C8_retry_params_witness :
    (scan_with_retries envAllTimeout 80 rangeTimeoutMs rangeRetries).sleeps =
      100 :: [200] ∧
    (100 : Nat) = retryBaseBackoffMs := by
  refine ⟨rfl, ?_⟩
  exact C8_retry_params.2.2.2 envAllTimeout 80 rangeTimeoutMs rangeRetries
    100 [200] rfl

/-- C9: the service label is a pure function of the port — the 17 table
entries resolve to their fixed names, every port outside the table
resolves to `"unknown"`, every delivered probe outcome carries exactly
`identify_service port`, and the top-ports scan probes exactly the 17
table ports. -/
theorem C9_service_table :
    (∀ p : Nat, p ∉ TOP_PORTS → identify_service p = "unknown") ∧
    identify_service 21 = "ftp" ∧ identify_service 22 = "ssh" ∧
    identify_service 23 = "telnet" ∧ identify_service 25 = "smtp" ∧
    identify_service 53 = "dns" ∧ identify_service 80 = "http" ∧
    identify_service 110 = "pop3" ∧ identify_service 143 = "imap" ∧
    identify_service 443 = "https" ∧ identify_service 445 = "smb" ∧
    identify_service 3306 = "mysql" ∧ identify_service 3389 = "rdp" ∧
    identify_service 5432 = "postgres" ∧ identify_service 5900 = "vnc" ∧
    identify_service 8080 = "http-alt" ∧
    identify_service 8443 = "https-alt" ∧
    identify_service 9200 = "elasticsearch" ∧
    (∀ (env : Nat → ConnectOutcome) (port timeoutMs retries : Nat),
      (scan_with_retries env port timeoutMs retries).result.service =
        identify_service port) ∧
    TOP_PORTS = [21, 22, 23, 25, 53, 80, 110, 143, 443, 445,
                 3306, 3389, 5432, 5900, 8080, 8443, 9200] := by
  refine ⟨?_, rfl, rfl, rfl, rfl, rfl, rfl, rfl, rfl, rfl, rfl, rfl, rfl,
    rfl, rfl, rfl, rfl, rfl, scan_with_retries_service, rfl⟩
  intro p hp
  unfold identify_service
  split <;> simp_all [TOP_PORTS]

/-- C9 witness: port 1234 is outside the table and resolves to
`"unknown"`. -/
theorem C9_service_table_witness :
    (1234 : Nat) ∉ TOP_PORTS ∧ identify_service 1234 = "unknown" := by
  have hmem : (1234 : Nat) ∉ TOP_PORTS := by decide
  exact ⟨hmem, C9_service_table.1 1234 hmem⟩

/-- C10: the u16 capacity expression `end_port - start_port + 1` that
`scan_range` evaluates before dispatching any probe underflows when
`start_port > end_port`, overflows for `start_port = 0`,
`end_port = 65535`, and under the documented precondition
`1 ≤ start_port ≤ end_port` evaluates without overflow to the size of the
port set; a range run can only produce a trace when the expression
evaluates. -/
theorem C10_capacity_arithmetic :
    (∀ s e : Nat, e < s → checkedCapacity s e = none) ∧
    checkedCapacity 0 65535 = none ∧
    (∀ s e : Nat, 1 ≤ s → s ≤ e → e ≤ 65535 →
      checkedCapacity s e = some (e - s + 1) ∧
      (rangePorts s e).length = e - s + 1) ∧
    (∀ env s e trace, scanRangeTrace env s e trace →
      (checkedCapacity s e).isSome = true) := by
  refine ⟨?_, rfl, ?_, ?_⟩
  · intro s e h
    simp [checkedCapacity, u16CheckedSub, show ¬ s ≤ e from by omega]
  · intro s e h1 h2 h3
    constructor
    · have hsub : u16CheckedSub e s = some (e - s) := by
        simp [u16CheckedSub, h2]
      have hadd : u16CheckedAdd (e - s) 1 = some (e - s + 1) := by
        simp [u16CheckedAdd]
        omega
      simp [checkedCapacity, hsub, hadd]
    · rw [rangePorts_length]
      omega
  · intro env s e trace h
    exact h.1

/-- C10 witness: an inverted range panics, and the largest valid range
1..=65535 evaluates to capacity 65535, the length of its port list. -/
theorem C10_capacity_arithmetic_witness :
    (1 : Nat) < 2 ∧ checkedCapacity 2 1 = none ∧
    checkedCapacity 1 65535 = some (65535 - 1 + 1) ∧
    (rangePorts 1 65535).length = 65535 - 1 + 1 := by
  have h := C10_capacity_arithmetic.2.2.1 1 65535 (Nat.le_refl 1)
    (by omega) (Nat.le_refl 65535)
  exact ⟨by omega, C10_capacity_arithmetic.1 2 1 (by omega), h.1, h.2⟩

end SimpleScanner
